import Mathlib

/-!
Verification development for the Chitungwiza Hospital EHR schema and its
row-level-security (RLS) policy set, embedded from
supabase/migrations/20260206091748_create_ehr_schema.sql and the client
components (LabResults.tsx and friends).

Modelling conventions:
* uuid and timestamptz become Nat (opaque identifiers / instants).
* text columns become String; nullable columns become Option.
* Each CREATE TABLE becomes a structure whose fields keep the SQL names.
* The database is a record of seven lists of rows.
* Each CREATE POLICY becomes a Bool-valued predicate over the database and
  the calling identity (auth.uid()).  Permissive policies for the same
  command are combined with disjunction, as Postgres does.
* PostgreSQL RLS semantics: a SELECT filters rows by the USING clauses; an
  INSERT whose WITH CHECK fails raises an error; an UPDATE or DELETE whose
  USING clause rejects a row silently skips that row (no error).
* Constraint checks (CHECK, NOT NULL on staff.user_id, UNIQUE, FOREIGN KEY,
  PRIMARY KEY) are performed by the write operations and raise errors drawn
  from the taxonomy of the specification.
-/

abbrev Uuid := Nat
abbrev Timestamp := Nat

/-- Row of the staff table.  user_id is Option because the NOT NULL
constraint on it is enforced by the write operations, so that the
constraint itself can be stated. -/
structure StaffRow where
  id : Uuid
  user_id : Option Uuid
  first_name : String
  last_name : String
  role : String
  specialization : Option String
  phone : String
  email : String
  license_number : Option String
  created_at : Timestamp
deriving Repr, DecidableEq

/-- Row of the patients table. -/
structure PatientRow where
  id : Uuid
  first_name : String
  last_name : String
  date_of_birth : Nat
  gender : String
  phone : String
  email : Option String
  address : String
  national_id : String
  blood_type : Option String
  allergies : Option String
  emergency_contact_name : String
  emergency_contact_phone : String
  created_at : Timestamp
deriving Repr, DecidableEq

/-- Row of the appointments table. -/
structure AppointmentRow where
  id : Uuid
  patient_id : Uuid
  doctor_id : Uuid
  appointment_date : Timestamp
  status : String
  reason : String
  notes : Option String
  created_at : Timestamp
deriving Repr, DecidableEq

/-- Row of the medical_records table. -/
structure MedicalRecordRow where
  id : Uuid
  patient_id : Uuid
  doctor_id : Uuid
  appointment_id : Option Uuid
  visit_date : Timestamp
  chief_complaint : String
  diagnosis : String
  treatment_plan : String
  notes : Option String
  created_at : Timestamp
deriving Repr, DecidableEq

/-- Row of the vitals table. -/
structure VitalRow where
  id : Uuid
  medical_record_id : Uuid
  blood_pressure_systolic : Option Int
  blood_pressure_diastolic : Option Int
  heart_rate : Option Int
  temperature : Option Rat
  weight : Option Rat
  height : Option Rat
  recorded_by : Uuid
  recorded_at : Timestamp
deriving Repr, DecidableEq

/-- Row of the prescriptions table. -/
structure PrescriptionRow where
  id : Uuid
  medical_record_id : Uuid
  patient_id : Uuid
  doctor_id : Uuid
  medication_name : String
  dosage : String
  frequency : String
  duration : String
  instructions : Option String
  created_at : Timestamp
deriving Repr, DecidableEq

/-- Row of the lab_results table. -/
structure LabResultRow where
  id : Uuid
  patient_id : Uuid
  medical_record_id : Option Uuid
  test_name : String
  test_type : String
  results : Option String
  status : String
  ordered_by : Uuid
  performed_by : Option Uuid
  ordered_at : Timestamp
  completed_at : Option Timestamp
deriving Repr, DecidableEq

/-- The whole database: the seven tables of the migration. -/
structure DB where
  staff : List StaffRow
  patients : List PatientRow
  appointments : List AppointmentRow
  medical_records : List MedicalRecordRow
  vitals : List VitalRow
  prescriptions : List PrescriptionRow
  lab_results : List LabResultRow
deriving Repr, DecidableEq

def emptyDB : DB := ⟨[], [], [], [], [], [], []⟩

/-! CHECK constraints of the migration. -/

/-- CHECK on staff.role. -/
def roleCheck (r : String) : Bool :=
  ["admin", "doctor", "nurse", "receptionist", "lab_technician"].contains r

/-- CHECK on patients.gender. -/
def genderCheck (g : String) : Bool :=
  ["male", "female", "other"].contains g

/-- CHECK on appointments.status. -/
def appointmentStatusCheck (s : String) : Bool :=
  ["scheduled", "completed", "cancelled", "no_show"].contains s

/-- CHECK on lab_results.status. -/
def labStatusCheck (s : String) : Bool :=
  ["pending", "completed", "cancelled"].contains s

/-! The EXISTS subqueries that every policy of the migration is built from. -/

/-- EXISTS (SELECT 1 FROM staff WHERE staff.user_id = auth.uid()). -/
def hasStaffRow (db : DB) (uid : Uuid) : Bool :=
  db.staff.any (fun s => s.user_id == some uid)

/-- EXISTS (SELECT 1 FROM staff WHERE staff.user_id = auth.uid()
AND staff.role IN rs). -/
def hasRole (db : DB) (uid : Uuid) (rs : List String) : Bool :=
  db.staff.any (fun s => s.user_id == some uid && rs.contains s.role)

/-- EXISTS (SELECT 1 FROM staff WHERE staff.user_id = auth.uid()
AND staff.role = admin). -/
def isAdmin (db : DB) (uid : Uuid) : Bool :=
  db.staff.any (fun s => s.user_id == some uid && s.role == "admin")

/-! Per-table, per-command combined policy predicates.  Each is the
disjunction of the USING (for reads) or WITH CHECK (for writes) clauses of
the permissive policies that apply to that command, in migration order.
A FOR ALL policy contributes to every command. -/

/-- SELECT on staff: policies "Authenticated users can view all staff"
(USING true), "Staff can view own profile" (USING auth.uid() = user_id) and
the FOR ALL policy "Admins can manage staff". -/
def staffRowSelectable (db : DB) (uid : Uuid) (row : StaffRow) : Bool :=
  true || row.user_id == some uid || isAdmin db uid

/-- INSERT on staff: only the FOR ALL policy "Admins can manage staff". -/
def staffInsertAllowed (db : DB) (uid : Uuid) : Bool := isAdmin db uid

/-- UPDATE on staff: only the FOR ALL policy "Admins can manage staff". -/
def staffUpdateAllowed (db : DB) (uid : Uuid) : Bool := isAdmin db uid

/-- DELETE on staff: only the FOR ALL policy "Admins can manage staff". -/
def staffDeleteAllowed (db : DB) (uid : Uuid) : Bool := isAdmin db uid

/-- SELECT on patients: policy "Authenticated staff can view patients". -/
def patientsSelectAllowed (db : DB) (uid : Uuid) : Bool := hasStaffRow db uid

/-- INSERT on patients: policy "Receptionists and admins can insert
patients". -/
def patientsInsertAllowed (db : DB) (uid : Uuid) : Bool :=
  hasRole db uid ["receptionist", "admin"]

/-- UPDATE on patients: policy "Receptionists and admins can update
patients". -/
def patientsUpdateAllowed (db : DB) (uid : Uuid) : Bool :=
  hasRole db uid ["receptionist", "admin"]

/-- DELETE on patients: no policy, hence denied. -/
def patientsDeleteAllowed (_db : DB) (_uid : Uuid) : Bool := false

/-- SELECT on appointments: policy "Authenticated staff can view
appointments" plus the FOR ALL policy "Receptionists, doctors, and admins
can manage appointments". -/
def appointmentsSelectAllowed (db : DB) (uid : Uuid) : Bool :=
  hasStaffRow db uid || hasRole db uid ["receptionist", "doctor", "admin"]

/-- INSERT on appointments: the FOR ALL policy. -/
def appointmentsInsertAllowed (db : DB) (uid : Uuid) : Bool :=
  hasRole db uid ["receptionist", "doctor", "admin"]

/-- UPDATE on appointments: the FOR ALL policy. -/
def appointmentsUpdateAllowed (db : DB) (uid : Uuid) : Bool :=
  hasRole db uid ["receptionist", "doctor", "admin"]

/-- DELETE on appointments: the FOR ALL policy. -/
def appointmentsDeleteAllowed (db : DB) (uid : Uuid) : Bool :=
  hasRole db uid ["receptionist", "doctor", "admin"]

/-- SELECT on medical_records: policy "Doctors and nurses can view medical
records". -/
def medicalRecordsSelectAllowed (db : DB) (uid : Uuid) : Bool :=
  hasRole db uid ["doctor", "nurse", "admin"]

/-- INSERT on medical_records: policy "Doctors can create medical
records". -/
def medicalRecordsInsertAllowed (db : DB) (uid : Uuid) : Bool :=
  hasRole db uid ["doctor", "admin"]

/-- UPDATE on medical_records: policy "Doctors can update their own medical
records". -/
def medicalRecordsUpdateAllowed (db : DB) (uid : Uuid) : Bool :=
  hasRole db uid ["doctor", "admin"]

/-- DELETE on medical_records: no policy, hence denied. -/
def medicalRecordsDeleteAllowed (_db : DB) (_uid : Uuid) : Bool := false

/-- SELECT on vitals: policy "Staff can view vitals" plus the FOR ALL
policy "Nurses and doctors can manage vitals". -/
def vitalsSelectAllowed (db : DB) (uid : Uuid) : Bool :=
  hasStaffRow db uid || hasRole db uid ["nurse", "doctor", "admin"]

/-- INSERT on vitals: the FOR ALL policy. -/
def vitalsInsertAllowed (db : DB) (uid : Uuid) : Bool :=
  hasRole db uid ["nurse", "doctor", "admin"]

/-- UPDATE on vitals: the FOR ALL policy. -/
def vitalsUpdateAllowed (db : DB) (uid : Uuid) : Bool :=
  hasRole db uid ["nurse", "doctor", "admin"]

/-- DELETE on vitals: the FOR ALL policy. -/
def vitalsDeleteAllowed (db : DB) (uid : Uuid) : Bool :=
  hasRole db uid ["nurse", "doctor", "admin"]

/-- SELECT on prescriptions: policy "Staff can view prescriptions". -/
def prescriptionsSelectAllowed (db : DB) (uid : Uuid) : Bool :=
  hasStaffRow db uid

/-- INSERT on prescriptions: policy "Doctors can create prescriptions". -/
def prescriptionsInsertAllowed (db : DB) (uid : Uuid) : Bool :=
  hasRole db uid ["doctor", "admin"]

/-- UPDATE on prescriptions: no policy, hence denied. -/
def prescriptionsUpdateAllowed (_db : DB) (_uid : Uuid) : Bool := false

/-- DELETE on prescriptions: no policy, hence denied. -/
def prescriptionsDeleteAllowed (_db : DB) (_uid : Uuid) : Bool := false

/-- SELECT on lab_results: policy "Staff can view lab results". -/
def labResultsSelectAllowed (db : DB) (uid : Uuid) : Bool :=
  hasStaffRow db uid

/-- INSERT on lab_results: policy "Doctors can order lab tests". -/
def labResultsInsertAllowed (db : DB) (uid : Uuid) : Bool :=
  hasRole db uid ["doctor", "admin"]

/-- UPDATE on lab_results: policy "Lab technicians can update lab
results". -/
def labResultsUpdateAllowed (db : DB) (uid : Uuid) : Bool :=
  hasRole db uid ["lab_technician", "doctor", "admin"]

/-- DELETE on lab_results: no policy, hence denied. -/
def labResultsDeleteAllowed (_db : DB) (_uid : Uuid) : Bool := false

/-! SELECT operations: RLS filters each table by the combined USING
predicate of the SELECT policies. -/

def selectStaff (db : DB) (uid : Uuid) : List StaffRow :=
  db.staff.filter (fun row => staffRowSelectable db uid row)

def selectPatients (db : DB) (uid : Uuid) : List PatientRow :=
  db.patients.filter (fun _ => patientsSelectAllowed db uid)

def selectAppointments (db : DB) (uid : Uuid) : List AppointmentRow :=
  db.appointments.filter (fun _ => appointmentsSelectAllowed db uid)

def selectMedicalRecords (db : DB) (uid : Uuid) : List MedicalRecordRow :=
  db.medical_records.filter (fun _ => medicalRecordsSelectAllowed db uid)

def selectVitals (db : DB) (uid : Uuid) : List VitalRow :=
  db.vitals.filter (fun _ => vitalsSelectAllowed db uid)

def selectPrescriptions (db : DB) (uid : Uuid) : List PrescriptionRow :=
  db.prescriptions.filter (fun _ => prescriptionsSelectAllowed db uid)

def selectLabResults (db : DB) (uid : Uuid) : List LabResultRow :=
  db.lab_results.filter (fun _ => labResultsSelectAllowed db uid)

/-- Self-profile lookup: SELECT on staff filtered to the rows bound to the
callers own identity (what AuthContext does to resolve the session). -/
def selfProfile (db : DB) (uid : Uuid) : Option StaffRow :=
  (selectStaff db uid).find? (fun s => s.user_id == some uid)

/-! FOREIGN KEY lookups (REFERENCES clauses of the migration).
staff.user_id REFERENCES auth.users is external to the schema and is not
modelled. -/

def staffExists (db : DB) (sid : Uuid) : Bool :=
  db.staff.any (fun s => s.id == sid)

def patientExists (db : DB) (pid : Uuid) : Bool :=
  db.patients.any (fun p => p.id == pid)

def appointmentExists (db : DB) (aid : Uuid) : Bool :=
  db.appointments.any (fun a => a.id == aid)

def medicalRecordExists (db : DB) (mid : Uuid) : Bool :=
  db.medical_records.any (fun m => m.id == mid)

/-- A nullable foreign key is satisfied when absent. -/
def optFkOk (check : Uuid → Bool) : Option Uuid → Bool
  | none => true
  | some x => check x

/-- REFERENCES clauses of appointments: patient_id, doctor_id. -/
def appointmentRowFkOk (db : DB) (r : AppointmentRow) : Bool :=
  patientExists db r.patient_id && staffExists db r.doctor_id

/-- REFERENCES clauses of medical_records: patient_id, doctor_id and the
nullable appointment_id. -/
def medicalRecordRowFkOk (db : DB) (r : MedicalRecordRow) : Bool :=
  patientExists db r.patient_id && staffExists db r.doctor_id &&
    optFkOk (appointmentExists db) r.appointment_id

/-- REFERENCES clauses of vitals: medical_record_id, recorded_by. -/
def vitalRowFkOk (db : DB) (r : VitalRow) : Bool :=
  medicalRecordExists db r.medical_record_id && staffExists db r.recorded_by

/-- REFERENCES clauses of prescriptions: medical_record_id, patient_id,
doctor_id. -/
def prescriptionRowFkOk (db : DB) (r : PrescriptionRow) : Bool :=
  medicalRecordExists db r.medical_record_id && patientExists db r.patient_id &&
    staffExists db r.doctor_id

/-- REFERENCES clauses of lab_results: patient_id, the nullable
medical_record_id, ordered_by and the nullable performed_by. -/
def labResultRowFkOk (db : DB) (r : LabResultRow) : Bool :=
  patientExists db r.patient_id &&
    optFkOk (medicalRecordExists db) r.medical_record_id &&
    staffExists db r.ordered_by && optFkOk (staffExists db) r.performed_by

/-! Error taxonomy of the specification. -/

inductive DbError where
  | AuthorizationError
  | UniquenessError
  | ReferentialIntegrityError
  | CheckViolation
  | NotNullViolation
deriving Repr, DecidableEq

/-! Insert inputs: the columns a client may supply.  Columns with a SQL
DEFAULT (or that are nullable) are Option; id and created_at style columns
are server-generated, modelled as the newId and now parameters of the
insert operations (gen_random_uuid() and now()). -/

structure StaffInsert where
  user_id : Option Uuid
  first_name : String
  last_name : String
  role : String
  specialization : Option String
  phone : String
  email : String
  license_number : Option String
deriving Repr, DecidableEq

structure PatientInsert where
  first_name : String
  last_name : String
  date_of_birth : Nat
  gender : String
  phone : String
  email : Option String
  address : String
  national_id : String
  blood_type : Option String
  allergies : Option String
  emergency_contact_name : String
  emergency_contact_phone : String
deriving Repr, DecidableEq

structure AppointmentInsert where
  patient_id : Uuid
  doctor_id : Uuid
  appointment_date : Timestamp
  status : Option String
  reason : String
  notes : Option String
deriving Repr, DecidableEq

structure MedicalRecordInsert where
  patient_id : Uuid
  doctor_id : Uuid
  appointment_id : Option Uuid
  visit_date : Option Timestamp
  chief_complaint : String
  diagnosis : String
  treatment_plan : String
  notes : Option String
deriving Repr, DecidableEq

structure VitalInsert where
  medical_record_id : Uuid
  blood_pressure_systolic : Option Int
  blood_pressure_diastolic : Option Int
  heart_rate : Option Int
  temperature : Option Rat
  weight : Option Rat
  height : Option Rat
  recorded_by : Uuid
deriving Repr, DecidableEq

structure PrescriptionInsert where
  medical_record_id : Uuid
  patient_id : Uuid
  doctor_id : Uuid
  medication_name : String
  dosage : String
  frequency : String
  duration : String
  instructions : Option String
deriving Repr, DecidableEq

structure LabResultInsert where
  patient_id : Uuid
  medical_record_id : Option Uuid
  test_name : String
  test_type : String
  results : Option String
  status : Option String
  ordered_by : Uuid
  performed_by : Option Uuid
  ordered_at : Option Timestamp
  completed_at : Option Timestamp
deriving Repr, DecidableEq

/-! Row builders: apply the DEFAULT clauses of the migration. -/

def staffRowOf (newId : Uuid) (now : Timestamp) (i : StaffInsert) : StaffRow :=
  ⟨newId, i.user_id, i.first_name, i.last_name, i.role, i.specialization,
    i.phone, i.email, i.license_number, now⟩

def patientRowOf (newId : Uuid) (now : Timestamp) (i : PatientInsert) :
    PatientRow :=
  ⟨newId, i.first_name, i.last_name, i.date_of_birth, i.gender, i.phone,
    i.email, i.address, i.national_id, i.blood_type, i.allergies,
    i.emergency_contact_name, i.emergency_contact_phone, now⟩

/-- appointments.status DEFAULT scheduled. -/
def appointmentRowOf (newId : Uuid) (now : Timestamp) (i : AppointmentInsert) :
    AppointmentRow :=
  ⟨newId, i.patient_id, i.doctor_id, i.appointment_date,
    i.status.getD "scheduled", i.reason, i.notes, now⟩

/-- medical_records.visit_date DEFAULT now(). -/
def medicalRecordRowOf (newId : Uuid) (now : Timestamp)
    (i : MedicalRecordInsert) : MedicalRecordRow :=
  ⟨newId, i.patient_id, i.doctor_id, i.appointment_id, i.visit_date.getD now,
    i.chief_complaint, i.diagnosis, i.treatment_plan, i.notes, now⟩

def vitalRowOf (newId : Uuid) (now : Timestamp) (i : VitalInsert) : VitalRow :=
  ⟨newId, i.medical_record_id, i.blood_pressure_systolic,
    i.blood_pressure_diastolic, i.heart_rate, i.temperature, i.weight,
    i.height, i.recorded_by, now⟩

def prescriptionRowOf (newId : Uuid) (now : Timestamp) (i : PrescriptionInsert) :
    PrescriptionRow :=
  ⟨newId, i.medical_record_id, i.patient_id, i.doctor_id, i.medication_name,
    i.dosage, i.frequency, i.duration, i.instructions, now⟩

/-- lab_results.status DEFAULT pending, ordered_at DEFAULT now(). -/
def labResultRowOf (newId : Uuid) (now : Timestamp) (i : LabResultInsert) :
    LabResultRow :=
  ⟨newId, i.patient_id, i.medical_record_id, i.test_name, i.test_type,
    i.results, i.status.getD "pending", i.ordered_by, i.performed_by,
    i.ordered_at.getD now, i.completed_at⟩

/-! References to a row from child tables (the FOREIGN KEY NO ACTION rule
that restricts deletes). -/

def staffReferenced (db : DB) (sid : Uuid) : Bool :=
  db.appointments.any (fun a => a.doctor_id == sid) ||
  db.medical_records.any (fun m => m.doctor_id == sid) ||
  db.vitals.any (fun v => v.recorded_by == sid) ||
  db.prescriptions.any (fun p => p.doctor_id == sid) ||
  db.lab_results.any (fun l => l.ordered_by == sid || l.performed_by == some sid)

def patientReferenced (db : DB) (pid : Uuid) : Bool :=
  db.appointments.any (fun a => a.patient_id == pid) ||
  db.medical_records.any (fun m => m.patient_id == pid) ||
  db.prescriptions.any (fun p => p.patient_id == pid) ||
  db.lab_results.any (fun l => l.patient_id == pid)

def appointmentReferenced (db : DB) (aid : Uuid) : Bool :=
  db.medical_records.any (fun m => m.appointment_id == some aid)

def medicalRecordReferenced (db : DB) (mid : Uuid) : Bool :=
  db.vitals.any (fun v => v.medical_record_id == mid) ||
  db.prescriptions.any (fun p => p.medical_record_id == mid) ||
  db.lab_results.any (fun l => l.medical_record_id == some mid)

/-! INSERT operations.  Each checks, in order: the RLS WITH CHECK
predicate (failure raises an authorization error), the CHECK and NOT NULL
constraints, the FOREIGN KEY constraints, the UNIQUE constraints, the
PRIMARY KEY, and then appends the built row. -/

/-- Constraint part of an insert into staff, shared with the migration
seed (which runs as table owner, bypassing RLS but not constraints). -/
def insertStaffChecked (db : DB) (newId : Uuid) (now : Timestamp)
    (i : StaffInsert) : Except DbError DB :=
  let row := staffRowOf newId now i
  if roleCheck row.role = false then .error .CheckViolation
  else if row.user_id.isNone then .error .NotNullViolation
  else if db.staff.any (fun s => s.user_id == row.user_id) then
    .error .UniquenessError
  else if staffExists db newId then .error .UniquenessError
  else .ok { db with staff := db.staff ++ [row] }

def insertStaff (db : DB) (uid : Uuid) (newId : Uuid) (now : Timestamp)
    (i : StaffInsert) : Except DbError DB :=
  if staffInsertAllowed db uid then insertStaffChecked db newId now i
  else .error .AuthorizationError

/-- Migration-level insert into staff, as in the demo-account migration:
executed by the table owner, so RLS does not apply but constraints do. -/
def seedStaff (db : DB) (newId : Uuid) (now : Timestamp) (i : StaffInsert) :
    Except DbError DB :=
  insertStaffChecked db newId now i

def insertPatient (db : DB) (uid : Uuid) (newId : Uuid) (now : Timestamp)
    (i : PatientInsert) : Except DbError DB :=
  if patientsInsertAllowed db uid then
    let row := patientRowOf newId now i
    if genderCheck row.gender = false then .error .CheckViolation
    else if db.patients.any (fun p => p.national_id == row.national_id) then
      .error .UniquenessError
    else if patientExists db newId then .error .UniquenessError
    else .ok { db with patients := db.patients ++ [row] }
  else .error .AuthorizationError

def insertAppointment (db : DB) (uid : Uuid) (newId : Uuid) (now : Timestamp)
    (i : AppointmentInsert) : Except DbError DB :=
  if appointmentsInsertAllowed db uid then
    let row := appointmentRowOf newId now i
    if appointmentStatusCheck row.status = false then .error .CheckViolation
    else if appointmentRowFkOk db row = false then
      .error .ReferentialIntegrityError
    else if appointmentExists db newId then .error .UniquenessError
    else .ok { db with appointments := db.appointments ++ [row] }
  else .error .AuthorizationError

def insertMedicalRecord (db : DB) (uid : Uuid) (newId : Uuid)
    (now : Timestamp) (i : MedicalRecordInsert) : Except DbError DB :=
  if medicalRecordsInsertAllowed db uid then
    let row := medicalRecordRowOf newId now i
    if medicalRecordRowFkOk db row = false then
      .error .ReferentialIntegrityError
    else if medicalRecordExists db newId then .error .UniquenessError
    else .ok { db with medical_records := db.medical_records ++ [row] }
  else .error .AuthorizationError

def insertVital (db : DB) (uid : Uuid) (newId : Uuid) (now : Timestamp)
    (i : VitalInsert) : Except DbError DB :=
  if vitalsInsertAllowed db uid then
    let row := vitalRowOf newId now i
    if vitalRowFkOk db row = false then .error .ReferentialIntegrityError
    else if db.vitals.any (fun v => v.id == newId) then
      .error .UniquenessError
    else .ok { db with vitals := db.vitals ++ [row] }
  else .error .AuthorizationError

def insertPrescription (db : DB) (uid : Uuid) (newId : Uuid)
    (now : Timestamp) (i : PrescriptionInsert) : Except DbError DB :=
  if prescriptionsInsertAllowed db uid then
    let row := prescriptionRowOf newId now i
    if prescriptionRowFkOk db row = false then
      .error .ReferentialIntegrityError
    else if db.prescriptions.any (fun p => p.id == newId) then
      .error .UniquenessError
    else .ok { db with prescriptions := db.prescriptions ++ [row] }
  else .error .AuthorizationError

def insertLabResult (db : DB) (uid : Uuid) (newId : Uuid) (now : Timestamp)
    (i : LabResultInsert) : Except DbError DB :=
  if labResultsInsertAllowed db uid then
    let row := labResultRowOf newId now i
    if labStatusCheck row.status = false then .error .CheckViolation
    else if labResultRowFkOk db row = false then
      .error .ReferentialIntegrityError
    else if db.lab_results.any (fun l => l.id == newId) then
      .error .UniquenessError
    else .ok { db with lab_results := db.lab_results ++ [row] }
  else .error .AuthorizationError

/-! UPDATE operations.  RLS: the USING predicate filters the target rows;
a row it rejects is silently left unchanged, and when it rejects every row
the statement succeeds while changing nothing.  On the rows it does reach,
the constraints of the table are re-checked on the new row. -/

def applyStaffUpdate (db : DB) (sid : Uuid) (f : StaffRow → StaffRow) :
    Except DbError DB :=
  match db.staff.find? (fun s => s.id == sid) with
  | none => .ok db
  | some old =>
    let new := f old
    if roleCheck new.role = false then .error .CheckViolation
    else if new.user_id.isNone then .error .NotNullViolation
    else if db.staff.any (fun s => !(s.id == old.id) && s.user_id == new.user_id)
      then .error .UniquenessError
    else if db.staff.any (fun s => !(s.id == old.id) && s.id == new.id) then
      .error .UniquenessError
    else .ok { db with
      staff := db.staff.map (fun s => if s.id == old.id then new else s) }

def updateStaff (db : DB) (uid : Uuid) (sid : Uuid) (f : StaffRow → StaffRow) :
    Except DbError DB :=
  if staffUpdateAllowed db uid then applyStaffUpdate db sid f else .ok db

def applyPatientUpdate (db : DB) (pid : Uuid) (f : PatientRow → PatientRow) :
    Except DbError DB :=
  match db.patients.find? (fun p => p.id == pid) with
  | none => .ok db
  | some old =>
    let new := f old
    if genderCheck new.gender = false then .error .CheckViolation
    else if db.patients.any
        (fun p => !(p.id == old.id) && p.national_id == new.national_id) then
      .error .UniquenessError
    else if db.patients.any (fun p => !(p.id == old.id) && p.id == new.id) then
      .error .UniquenessError
    else .ok { db with
      patients := db.patients.map (fun p => if p.id == old.id then new else p) }

def updatePatient (db : DB) (uid : Uuid) (pid : Uuid)
    (f : PatientRow → PatientRow) : Except DbError DB :=
  if patientsUpdateAllowed db uid then applyPatientUpdate db pid f else .ok db

def applyAppointmentUpdate (db : DB) (aid : Uuid)
    (f : AppointmentRow → AppointmentRow) : Except DbError DB :=
  match db.appointments.find? (fun a => a.id == aid) with
  | none => .ok db
  | some old =>
    let new := f old
    if appointmentStatusCheck new.status = false then .error .CheckViolation
    else if appointmentRowFkOk db new = false then
      .error .ReferentialIntegrityError
    else if db.appointments.any (fun a => !(a.id == old.id) && a.id == new.id)
      then .error .UniquenessError
    else .ok { db with appointments :=
      db.appointments.map (fun a => if a.id == old.id then new else a) }

def updateAppointment (db : DB) (uid : Uuid) (aid : Uuid)
    (f : AppointmentRow → AppointmentRow) : Except DbError DB :=
  if appointmentsUpdateAllowed db uid then applyAppointmentUpdate db aid f
  else .ok db

def applyMedicalRecordUpdate (db : DB) (mid : Uuid)
    (f : MedicalRecordRow → MedicalRecordRow) : Except DbError DB :=
  match db.medical_records.find? (fun m => m.id == mid) with
  | none => .ok db
  | some old =>
    let new := f old
    if medicalRecordRowFkOk db new = false then
      .error .ReferentialIntegrityError
    else if db.medical_records.any
        (fun m => !(m.id == old.id) && m.id == new.id) then
      .error .UniquenessError
    else .ok { db with medical_records :=
      db.medical_records.map (fun m => if m.id == old.id then new else m) }

def updateMedicalRecord (db : DB) (uid : Uuid) (mid : Uuid)
    (f : MedicalRecordRow → MedicalRecordRow) : Except DbError DB :=
  if medicalRecordsUpdateAllowed db uid then applyMedicalRecordUpdate db mid f
  else .ok db

def applyVitalUpdate (db : DB) (vid : Uuid) (f : VitalRow → VitalRow) :
    Except DbError DB :=
  match db.vitals.find? (fun v => v.id == vid) with
  | none => .ok db
  | some old =>
    let new := f old
    if vitalRowFkOk db new = false then .error .ReferentialIntegrityError
    else if db.vitals.any (fun v => !(v.id == old.id) && v.id == new.id) then
      .error .UniquenessError
    else .ok { db with
      vitals := db.vitals.map (fun v => if v.id == old.id then new else v) }

def updateVital (db : DB) (uid : Uuid) (vid : Uuid) (f : VitalRow → VitalRow) :
    Except DbError DB :=
  if vitalsUpdateAllowed db uid then applyVitalUpdate db vid f else .ok db

def applyPrescriptionUpdate (db : DB) (pid : Uuid)
    (f : PrescriptionRow → PrescriptionRow) : Except DbError DB :=
  match db.prescriptions.find? (fun p => p.id == pid) with
  | none => .ok db
  | some old =>
    let new := f old
    if prescriptionRowFkOk db new = false then
      .error .ReferentialIntegrityError
    else if db.prescriptions.any (fun p => !(p.id == old.id) && p.id == new.id)
      then .error .UniquenessError
    else .ok { db with prescriptions :=
      db.prescriptions.map (fun p => if p.id == old.id then new else p) }

def updatePrescription (db : DB) (uid : Uuid) (pid : Uuid)
    (f : PrescriptionRow → PrescriptionRow) : Except DbError DB :=
  if prescriptionsUpdateAllowed db uid then applyPrescriptionUpdate db pid f
  else .ok db

def applyLabResultUpdate (db : DB) (rid : Uuid)
    (f : LabResultRow → LabResultRow) : Except DbError DB :=
  match db.lab_results.find? (fun r => r.id == rid) with
  | none => .ok db
  | some old =>
    let new := f old
    if labStatusCheck new.status = false then .error .CheckViolation
    else if labResultRowFkOk db new = false then
      .error .ReferentialIntegrityError
    else if db.lab_results.any (fun r => !(r.id == old.id) && r.id == new.id)
      then .error .UniquenessError
    else .ok { db with lab_results :=
      db.lab_results.map (fun r => if r.id == old.id then new else r) }

def updateLabResultOp (db : DB) (uid : Uuid) (rid : Uuid)
    (f : LabResultRow → LabResultRow) : Except DbError DB :=
  if labResultsUpdateAllowed db uid then applyLabResultUpdate db rid f
  else .ok db

/-! DELETE operations.  RLS: rows the USING predicate rejects are silently
skipped; with no DELETE policy nothing is ever deleted.  A delete of a row
still referenced from a child table fails the FOREIGN KEY NO ACTION rule. -/

def deleteStaff (db : DB) (uid : Uuid) (sid : Uuid) : Except DbError DB :=
  if staffDeleteAllowed db uid then
    if db.staff.any (fun s => s.id == sid) then
      if staffReferenced db sid then .error .ReferentialIntegrityError
      else .ok { db with staff := db.staff.filter (fun s => !(s.id == sid)) }
    else .ok db
  else .ok db

def deletePatient (db : DB) (uid : Uuid) (pid : Uuid) : Except DbError DB :=
  if patientsDeleteAllowed db uid then
    if db.patients.any (fun p => p.id == pid) then
      if patientReferenced db pid then .error .ReferentialIntegrityError
      else .ok { db with
        patients := db.patients.filter (fun p => !(p.id == pid)) }
    else .ok db
  else .ok db

def deleteAppointment (db : DB) (uid : Uuid) (aid : Uuid) : Except DbError DB :=
  if appointmentsDeleteAllowed db uid then
    if db.appointments.any (fun a => a.id == aid) then
      if appointmentReferenced db aid then .error .ReferentialIntegrityError
      else .ok { db with
        appointments := db.appointments.filter (fun a => !(a.id == aid)) }
    else .ok db
  else .ok db

def deleteMedicalRecord (db : DB) (uid : Uuid) (mid : Uuid) :
    Except DbError DB :=
  if medicalRecordsDeleteAllowed db uid then
    if db.medical_records.any (fun m => m.id == mid) then
      if medicalRecordReferenced db mid then .error .ReferentialIntegrityError
      else .ok { db with medical_records :=
        db.medical_records.filter (fun m => !(m.id == mid)) }
    else .ok db
  else .ok db

def deleteVital (db : DB) (uid : Uuid) (vid : Uuid) : Except DbError DB :=
  if vitalsDeleteAllowed db uid then
    .ok { db with vitals := db.vitals.filter (fun v => !(v.id == vid)) }
  else .ok db

def deletePrescription (db : DB) (uid : Uuid) (pid : Uuid) :
    Except DbError DB :=
  if prescriptionsDeleteAllowed db uid then
    .ok { db with
      prescriptions := db.prescriptions.filter (fun p => !(p.id == pid)) }
  else .ok db

def deleteLabResult (db : DB) (uid : Uuid) (rid : Uuid) : Except DbError DB :=
  if labResultsDeleteAllowed db uid then
    .ok { db with
      lab_results := db.lab_results.filter (fun r => !(r.id == rid)) }
  else .ok db

/-! Client-side lab-result operations, from LabResults.tsx. -/

/-- AddLabTestModal.handleSubmit: insert into lab_results the form data
plus ordered_by = currentStaffId and status = pending. -/
def orderLabTest (db : DB) (uid : Uuid) (newId : Uuid) (now : Timestamp)
    (pid : Uuid) (test_name test_type : String) (currentStaffId : Uuid) :
    Except DbError DB :=
  insertLabResult db uid newId now
    ⟨pid, none, test_name, test_type, none, some "pending", currentStaffId,
      none, none, none⟩

/-- LabResults.updateLabResult: update the row with the given id, setting
results, status, performed_by = currentStaff.id and
completed_at = new Date().toISOString(). -/
def updateLabResult (db : DB) (uid : Uuid) (currentStaffId : Option Uuid)
    (rid : Uuid) (results status : String) (now : Timestamp) :
    Except DbError DB :=
  updateLabResultOp db uid rid (fun r =>
    { r with results := some results, status := status,
             performed_by := currentStaffId, completed_at := some now })

/-- AddResultsForm.handleSubmit: the only call of updateLabResult, always
with status completed. -/
def submitLabResults (db : DB) (uid : Uuid) (currentStaffId : Option Uuid)
    (rid : Uuid) (results : String) (now : Timestamp) : Except DbError DB :=
  updateLabResult db uid currentStaffId rid results "completed" now

/-! Invariants. -/

/-- Pairwise distinctness of a key across a list of rows. -/
def pairwiseNe {α β : Type} [BEq β] (k : α → β) : List α → Bool
  | [] => true
  | x :: xs => xs.all (fun y => k x != k y) && pairwiseNe k xs

/-- The invariant of the staff table stated by the schema: user_id is
NOT NULL and UNIQUE. -/
def staffInvB (db : DB) : Bool :=
  db.staff.all (fun s => s.user_id.isSome) &&
    pairwiseNe (fun s => s.user_id) db.staff

/-- PRIMARY KEY distinctness on staff, used to strengthen the induction. -/
def staffPkInvB (db : DB) : Bool :=
  pairwiseNe (fun s : StaffRow => s.id) db.staff

/-- completed_at is populated only on completed lab results. -/
def labCompletedAtOk (r : LabResultRow) : Bool :=
  r.completed_at.isNone || r.status == "completed"

def labInvB (db : DB) : Bool := db.lab_results.all labCompletedAtOk

/-! Generic lemmas about pairwiseNe. -/

theorem pairwiseNe_iff {α β : Type} [BEq β] [LawfulBEq β] (k : α → β) :
    ∀ l : List α, pairwiseNe k l = true ↔
      l.Pairwise (fun x y => k x ≠ k y) := by
  intro l
  induction l with
  | nil => simp [pairwiseNe]
  | cons x xs ih =>
    simp [pairwiseNe, List.all_eq_true, ih, List.pairwise_cons]

theorem pairwiseNe_append_singleton {α β : Type} [BEq β] [LawfulBEq β]
    (k : α → β) (l : List α) (r : α) (h : pairwiseNe k l = true)
    (h2 : ∀ x ∈ l, k x ≠ k r) : pairwiseNe k (l ++ [r]) = true := by
  rw [pairwiseNe_iff] at h ⊢
  refine List.pairwise_append.mpr ⟨h, by simp, ?_⟩
  intro x hx y hy
  simp only [List.mem_singleton] at hy
  subst hy
  exact h2 x hx

theorem pairwiseNe_filter {α β : Type} [BEq β] [LawfulBEq β] (k : α → β)
    (p : α → Bool) (l : List α) (h : pairwiseNe k l = true) :
    pairwiseNe k (l.filter p) = true := by
  rw [pairwiseNe_iff] at h ⊢
  exact h.sublist (List.filter_sublist l)

theorem pairwiseNe_update {α β γ : Type} [BEq β] [LawfulBEq β] [BEq γ]
    [LawfulBEq γ] (j : α → β) (k : α → γ) (oid : β) (new : α) (l : List α)
    (hj : pairwiseNe j l = true) (hk : pairwiseNe k l = true)
    (hnew : ∀ x ∈ l, j x ≠ oid → k x ≠ k new) :
    pairwiseNe k (l.map (fun s => if j s == oid then new else s)) = true := by
  induction l with
  | nil => simp [pairwiseNe]
  | cons s t ih =>
    simp only [pairwiseNe, Bool.and_eq_true, List.all_eq_true,
      bne_iff_ne, ne_eq] at hj hk
    simp only [List.map_cons, pairwiseNe, Bool.and_eq_true,
      List.all_eq_true, bne_iff_ne, ne_eq]
    refine ⟨?_, ih hj.2 hk.2 (fun x hx => hnew x (List.mem_cons_of_mem s hx))⟩
    intro y hy
    rcases List.mem_map.mp hy with ⟨u, hu, rfl⟩
    by_cases hs : j s = oid
    · simp only [hs, beq_self_eq_true, if_pos]
      by_cases hu2 : j u = oid
      · exact absurd (hs.trans hu2.symm) (hj.1 u hu)
      · simp only [beq_eq_false_iff_ne, ne_eq] at hu2 ⊢
        rw [if_neg (by simp [hu2])]
        exact fun e => (hnew u (List.mem_cons_of_mem s hu) hu2) e.symm
    · rw [if_neg (by simp [hs])]
      by_cases hu2 : j u = oid
      · rw [if_pos (by simp [hu2])]
        exact hnew s (List.mem_cons_self s t) hs
      · rw [if_neg (by simp [hu2])]
        exact hk.1 u hu

theorem all_filter_of_all {α : Type} (p q : α → Bool) (l : List α)
    (h : l.all q = true) : (l.filter p).all q = true := by
  simp only [List.all_eq_true] at h ⊢
  exact fun x hx => h x (List.mem_of_mem_filter hx)

/-! Resolving the caller: with a unique bound staff row, every role
predicate of the policy layer reduces to a check on that row. -/

theorem hasRole_of_bound (db : DB) (uid : Uuid) (srow : StaffRow)
    (hmem : srow ∈ db.staff) (huid : srow.user_id = some uid)
    (huniq : ∀ s ∈ db.staff, s.user_id = some uid → s = srow)
    (rs : List String) : hasRole db uid rs = rs.contains srow.role := by
  simp only [hasRole]
  cases hc : rs.contains srow.role with
  | true =>
    apply List.any_eq_true.mpr
    have hc2 : srow.role ∈ rs := by simpa using hc
    refine ⟨srow, hmem, ?_⟩
    simp [huid, hc2]
  | false =>
    apply List.any_eq_false.mpr
    intro s hs
    simp only [Bool.not_eq_true, Bool.and_eq_false_iff,
      beq_eq_false_iff_ne, ne_eq]
    by_cases he : s.user_id = some uid
    · right
      rw [huniq s hs he]
      exact hc
    · left
      simpa using he

theorem hasRole_false_of_no_staff (db : DB) (uid : Uuid)
    (h : hasStaffRow db uid = false) (rs : List String) :
    hasRole db uid rs = false := by
  simp only [hasStaffRow, List.any_eq_false] at h
  apply List.any_eq_false.mpr
  intro s hs
  simp [h s hs]

theorem isAdmin_false_of_no_staff (db : DB) (uid : Uuid)
    (h : hasStaffRow db uid = false) : isAdmin db uid = false := by
  simp only [hasStaffRow, List.any_eq_false] at h
  apply List.any_eq_false.mpr
  intro s hs
  simp [h s hs]

/-! Operations on the other six tables never change the staff table. -/

theorem insertPatient_staff_eq {db db' : DB} {uid nid : Uuid} {now : Timestamp}
    {i : PatientInsert} (h : insertPatient db uid nid now i = Except.ok db') :
    db'.staff = db.staff := by
  simp only [insertPatient] at h
  repeat' split at h
  all_goals cases h
  all_goals rfl

theorem insertAppointment_staff_eq {db db' : DB} {uid nid : Uuid} {now : Timestamp}
    {i : AppointmentInsert} (h : insertAppointment db uid nid now i = Except.ok db') :
    db'.staff = db.staff := by
  simp only [insertAppointment] at h
  repeat' split at h
  all_goals cases h
  all_goals rfl

theorem insertMedicalRecord_staff_eq {db db' : DB} {uid nid : Uuid} {now : Timestamp}
    {i : MedicalRecordInsert} (h : insertMedicalRecord db uid nid now i = Except.ok db') :
    db'.staff = db.staff := by
  simp only [insertMedicalRecord] at h
  repeat' split at h
  all_goals cases h
  all_goals rfl

theorem insertVital_staff_eq {db db' : DB} {uid nid : Uuid} {now : Timestamp}
    {i : VitalInsert} (h : insertVital db uid nid now i = Except.ok db') :
    db'.staff = db.staff := by
  simp only [insertVital] at h
  repeat' split at h
  all_goals cases h
  all_goals rfl

theorem insertPrescription_staff_eq {db db' : DB} {uid nid : Uuid} {now : Timestamp}
    {i : PrescriptionInsert} (h : insertPrescription db uid nid now i = Except.ok db') :
    db'.staff = db.staff := by
  simp only [insertPrescription] at h
  repeat' split at h
  all_goals cases h
  all_goals rfl

theorem insertLabResult_staff_eq {db db' : DB} {uid nid : Uuid} {now : Timestamp}
    {i : LabResultInsert} (h : insertLabResult db uid nid now i = Except.ok db') :
    db'.staff = db.staff := by
  simp only [insertLabResult] at h
  repeat' split at h
  all_goals cases h
  all_goals rfl

theorem updatePatient_staff_eq {db db' : DB} {uid rid : Uuid}
    {f : PatientRow → PatientRow} (h : updatePatient db uid rid f = Except.ok db') :
    db'.staff = db.staff := by
  simp only [updatePatient, applyPatientUpdate] at h
  repeat' split at h
  all_goals cases h
  all_goals rfl

theorem updateAppointment_staff_eq {db db' : DB} {uid rid : Uuid}
    {f : AppointmentRow → AppointmentRow} (h : updateAppointment db uid rid f = Except.ok db') :
    db'.staff = db.staff := by
  simp only [updateAppointment, applyAppointmentUpdate] at h
  repeat' split at h
  all_goals cases h
  all_goals rfl

theorem updateMedicalRecord_staff_eq {db db' : DB} {uid rid : Uuid}
    {f : MedicalRecordRow → MedicalRecordRow} (h : updateMedicalRecord db uid rid f = Except.ok db') :
    db'.staff = db.staff := by
  simp only [updateMedicalRecord, applyMedicalRecordUpdate] at h
  repeat' split at h
  all_goals cases h
  all_goals rfl

theorem updateVital_staff_eq {db db' : DB} {uid rid : Uuid}
    {f : VitalRow → VitalRow} (h : updateVital db uid rid f = Except.ok db') :
    db'.staff = db.staff := by
  simp only [updateVital, applyVitalUpdate] at h
  repeat' split at h
  all_goals cases h
  all_goals rfl

theorem updatePrescription_staff_eq {db db' : DB} {uid rid : Uuid}
    {f : PrescriptionRow → PrescriptionRow} (h : updatePrescription db uid rid f = Except.ok db') :
    db'.staff = db.staff := by
  simp only [updatePrescription, applyPrescriptionUpdate] at h
  repeat' split at h
  all_goals cases h
  all_goals rfl

theorem updateLabResultOp_staff_eq {db db' : DB} {uid rid : Uuid}
    {f : LabResultRow → LabResultRow} (h : updateLabResultOp db uid rid f = Except.ok db') :
    db'.staff = db.staff := by
  simp only [updateLabResultOp, applyLabResultUpdate] at h
  repeat' split at h
  all_goals cases h
  all_goals rfl

theorem deletePatient_staff_eq {db db' : DB} {uid rid : Uuid}
    (h : deletePatient db uid rid = Except.ok db') :
    db'.staff = db.staff := by
  simp only [deletePatient] at h
  repeat' split at h
  all_goals cases h
  all_goals rfl

theorem deleteAppointment_staff_eq {db db' : DB} {uid rid : Uuid}
    (h : deleteAppointment db uid rid = Except.ok db') :
    db'.staff = db.staff := by
  simp only [deleteAppointment] at h
  repeat' split at h
  all_goals cases h
  all_goals rfl

theorem deleteMedicalRecord_staff_eq {db db' : DB} {uid rid : Uuid}
    (h : deleteMedicalRecord db uid rid = Except.ok db') :
    db'.staff = db.staff := by
  simp only [deleteMedicalRecord] at h
  repeat' split at h
  all_goals cases h
  all_goals rfl

theorem deleteVital_staff_eq {db db' : DB} {uid rid : Uuid}
    (h : deleteVital db uid rid = Except.ok db') :
    db'.staff = db.staff := by
  simp only [deleteVital] at h
  repeat' split at h
  all_goals cases h
  all_goals rfl

theorem deletePrescription_staff_eq {db db' : DB} {uid rid : Uuid}
    (h : deletePrescription db uid rid = Except.ok db') :
    db'.staff = db.staff := by
  simp only [deletePrescription] at h
  repeat' split at h
  all_goals cases h
  all_goals rfl

theorem deleteLabResult_staff_eq {db db' : DB} {uid rid : Uuid}
    (h : deleteLabResult db uid rid = Except.ok db') :
    db'.staff = db.staff := by
  simp only [deleteLabResult] at h
  repeat' split at h
  all_goals cases h
  all_goals rfl

/-! The staff operations preserve the staff invariants. -/

theorem staffInv_of_staff_eq {db db' : DB} (he : db'.staff = db.staff)
    (h1 : staffInvB db = true) (h2 : staffPkInvB db = true) :
    staffInvB db' = true ∧ staffPkInvB db' = true := by
  constructor
  · unfold staffInvB at h1 ⊢
    rw [he]
    exact h1
  · unfold staffPkInvB at h2 ⊢
    rw [he]
    exact h2

theorem insertStaffChecked_inv {db db' : DB} {nid : Uuid} {now : Timestamp}
    {i : StaffInsert} (h : insertStaffChecked db nid now i = Except.ok db')
    (h1 : staffInvB db = true) (h2 : staffPkInvB db = true) :
    staffInvB db' = true ∧ staffPkInvB db' = true := by
  simp only [insertStaffChecked] at h
  repeat' split at h
  any_goals cases h
  rename_i c1 c2 c3 c4
  have hsome : (staffRowOf nid now i).user_id.isSome = true := by
    cases hx : (staffRowOf nid now i).user_id with
    | none => rw [hx] at c2; exact absurd rfl c2
    | some v => rfl
  simp only [staffInvB, staffPkInvB, Bool.and_eq_true] at h1 h2 ⊢
  refine ⟨⟨?_, ?_⟩, ?_⟩
  · simp only [List.all_append, Bool.and_eq_true, List.all_eq_true]
    refine ⟨List.all_eq_true.mp h1.1, ?_⟩
    intro x hx
    rw [List.mem_singleton.mp hx]
    exact hsome
  · apply pairwiseNe_append_singleton _ _ _ h1.2
    intro x hx
    simp only [List.any_eq_true, not_exists] at c3
    intro e
    exact c3 x ⟨hx, by simp [e]⟩
  · apply pairwiseNe_append_singleton _ _ _ h2
    intro x hx
    simp only [staffExists, List.any_eq_true, not_exists] at c4
    intro e
    refine c4 x ⟨hx, ?_⟩
    simp only [staffRowOf] at e
    simp [e]

theorem applyStaffUpdate_inv {db db' : DB} {sid : Uuid}
    {f : StaffRow → StaffRow} (h : applyStaffUpdate db sid f = Except.ok db')
    (h1 : staffInvB db = true) (h2 : staffPkInvB db = true) :
    staffInvB db' = true ∧ staffPkInvB db' = true := by
  simp only [applyStaffUpdate] at h
  repeat' split at h
  any_goals cases h
  · exact ⟨h1, h2⟩
  rename_i old hfind c1 c2 c3 c4
  have hsome : (f old).user_id.isSome = true := by
    cases hx : (f old).user_id with
    | none => rw [hx] at c2; exact absurd rfl c2
    | some v => rfl
  have c3h : ∀ x ∈ db.staff, x.id ≠ old.id → x.user_id ≠ (f old).user_id := by
    simp only [List.any_eq_true, not_exists] at c3
    intro x hx hid e
    refine c3 x ⟨hx, ?_⟩
    rw [Bool.and_eq_true]
    exact ⟨by simp [hid], by simp [e]⟩
  have c4h : ∀ x ∈ db.staff, x.id ≠ old.id → x.id ≠ (f old).id := by
    simp only [List.any_eq_true, not_exists] at c4
    intro x hx hid e
    refine c4 x ⟨hx, ?_⟩
    rw [Bool.and_eq_true]
    exact ⟨by simp [hid], by simp [e]⟩
  simp only [staffInvB, staffPkInvB, Bool.and_eq_true] at h1 h2 ⊢
  refine ⟨⟨?_, ?_⟩, ?_⟩
  · simp only [List.all_eq_true]
    intro x hx
    rcases List.mem_map.mp hx with ⟨u, hu, rfl⟩
    by_cases hid : u.id = old.id
    · rw [if_pos (by simp [hid])]
      exact hsome
    · rw [if_neg (by simp [hid])]
      exact List.all_eq_true.mp h1.1 u hu
  · exact pairwiseNe_update (fun s => s.id) (fun s => s.user_id) old.id
      (f old) db.staff h2 h1.2 c3h
  · exact pairwiseNe_update (fun s => s.id) (fun s => s.id) old.id
      (f old) db.staff h2 h2 c4h

theorem insertStaff_inv {db db' : DB} {uid nid : Uuid} {now : Timestamp}
    {i : StaffInsert} (h : insertStaff db uid nid now i = Except.ok db')
    (h1 : staffInvB db = true) (h2 : staffPkInvB db = true) :
    staffInvB db' = true ∧ staffPkInvB db' = true := by
  simp only [insertStaff] at h
  split at h
  · exact insertStaffChecked_inv h h1 h2
  · cases h

theorem updateStaff_inv {db db' : DB} {uid sid : Uuid}
    {f : StaffRow → StaffRow} (h : updateStaff db uid sid f = Except.ok db')
    (h1 : staffInvB db = true) (h2 : staffPkInvB db = true) :
    staffInvB db' = true ∧ staffPkInvB db' = true := by
  simp only [updateStaff] at h
  split at h
  · exact applyStaffUpdate_inv h h1 h2
  · cases h
    exact ⟨h1, h2⟩

theorem deleteStaff_inv {db db' : DB} {uid sid : Uuid}
    (h : deleteStaff db uid sid = Except.ok db')
    (h1 : staffInvB db = true) (h2 : staffPkInvB db = true) :
    staffInvB db' = true ∧ staffPkInvB db' = true := by
  simp only [deleteStaff] at h
  repeat' split at h
  any_goals cases h
  · simp only [staffInvB, staffPkInvB, Bool.and_eq_true] at h1 h2 ⊢
    exact ⟨⟨all_filter_of_all _ _ _ h1.1, pairwiseNe_filter _ _ _ h1.2⟩,
      pairwiseNe_filter _ _ _ h2⟩
  · exact ⟨h1, h2⟩
  · exact ⟨h1, h2⟩

/-- One step of the system: any of the operations of the data layer,
performed by any caller, that succeeds; plus the migration-level staff
seed.  This is the transition relation of the database. -/
inductive Step : DB → DB → Prop where
  | seed {db db' : DB} {nid : Uuid} {now : Timestamp} {i : StaffInsert} :
      seedStaff db nid now i = Except.ok db' → Step db db'
  | staffIns {db db' : DB} {uid nid : Uuid} {now : Timestamp}
      {i : StaffInsert} :
      insertStaff db uid nid now i = Except.ok db' → Step db db'
  | staffUpd {db db' : DB} {uid sid : Uuid} {f : StaffRow → StaffRow} :
      updateStaff db uid sid f = Except.ok db' → Step db db'
  | staffDel {db db' : DB} {uid sid : Uuid} :
      deleteStaff db uid sid = Except.ok db' → Step db db'
  | patientIns {db db' : DB} {uid nid : Uuid} {now : Timestamp}
      {i : PatientInsert} :
      insertPatient db uid nid now i = Except.ok db' → Step db db'
  | patientUpd {db db' : DB} {uid rid : Uuid} {f : PatientRow → PatientRow} :
      updatePatient db uid rid f = Except.ok db' → Step db db'
  | patientDel {db db' : DB} {uid rid : Uuid} :
      deletePatient db uid rid = Except.ok db' → Step db db'
  | apptIns {db db' : DB} {uid nid : Uuid} {now : Timestamp}
      {i : AppointmentInsert} :
      insertAppointment db uid nid now i = Except.ok db' → Step db db'
  | apptUpd {db db' : DB} {uid rid : Uuid}
      {f : AppointmentRow → AppointmentRow} :
      updateAppointment db uid rid f = Except.ok db' → Step db db'
  | apptDel {db db' : DB} {uid rid : Uuid} :
      deleteAppointment db uid rid = Except.ok db' → Step db db'
  | mrIns {db db' : DB} {uid nid : Uuid} {now : Timestamp}
      {i : MedicalRecordInsert} :
      insertMedicalRecord db uid nid now i = Except.ok db' → Step db db'
  | mrUpd {db db' : DB} {uid rid : Uuid}
      {f : MedicalRecordRow → MedicalRecordRow} :
      updateMedicalRecord db uid rid f = Except.ok db' → Step db db'
  | mrDel {db db' : DB} {uid rid : Uuid} :
      deleteMedicalRecord db uid rid = Except.ok db' → Step db db'
  | vitalIns {db db' : DB} {uid nid : Uuid} {now : Timestamp}
      {i : VitalInsert} :
      insertVital db uid nid now i = Except.ok db' → Step db db'
  | vitalUpd {db db' : DB} {uid rid : Uuid} {f : VitalRow → VitalRow} :
      updateVital db uid rid f = Except.ok db' → Step db db'
  | vitalDel {db db' : DB} {uid rid : Uuid} :
      deleteVital db uid rid = Except.ok db' → Step db db'
  | rxIns {db db' : DB} {uid nid : Uuid} {now : Timestamp}
      {i : PrescriptionInsert} :
      insertPrescription db uid nid now i = Except.ok db' → Step db db'
  | rxUpd {db db' : DB} {uid rid : Uuid}
      {f : PrescriptionRow → PrescriptionRow} :
      updatePrescription db uid rid f = Except.ok db' → Step db db'
  | rxDel {db db' : DB} {uid rid : Uuid} :
      deletePrescription db uid rid = Except.ok db' → Step db db'
  | labIns {db db' : DB} {uid nid : Uuid} {now : Timestamp}
      {i : LabResultInsert} :
      insertLabResult db uid nid now i = Except.ok db' → Step db db'
  | labUpd {db db' : DB} {uid rid : Uuid} {f : LabResultRow → LabResultRow} :
      updateLabResultOp db uid rid f = Except.ok db' → Step db db'
  | labDel {db db' : DB} {uid rid : Uuid} :
      deleteLabResult db uid rid = Except.ok db' → Step db db'

/-- A database state is reachable when the empty post-migration state can
evolve into it by steps of the system. -/
def Reachable (db : DB) : Prop := Relation.ReflTransGen Step emptyDB db

theorem reachable_staff_inv (db : DB) (h : Reachable db) :
    staffInvB db = true ∧ staffPkInvB db = true := by
  induction h with
  | refl => exact ⟨rfl, rfl⟩
  | tail _ hstep ih =>
    cases hstep with
    | seed h => exact insertStaffChecked_inv h ih.1 ih.2
    | staffIns h => exact insertStaff_inv h ih.1 ih.2
    | staffUpd h => exact updateStaff_inv h ih.1 ih.2
    | staffDel h => exact deleteStaff_inv h ih.1 ih.2
    | patientIns h => exact staffInv_of_staff_eq (insertPatient_staff_eq h) ih.1 ih.2
    | patientUpd h => exact staffInv_of_staff_eq (updatePatient_staff_eq h) ih.1 ih.2
    | patientDel h => exact staffInv_of_staff_eq (deletePatient_staff_eq h) ih.1 ih.2
    | apptIns h => exact staffInv_of_staff_eq (insertAppointment_staff_eq h) ih.1 ih.2
    | apptUpd h => exact staffInv_of_staff_eq (updateAppointment_staff_eq h) ih.1 ih.2
    | apptDel h => exact staffInv_of_staff_eq (deleteAppointment_staff_eq h) ih.1 ih.2
    | mrIns h => exact staffInv_of_staff_eq (insertMedicalRecord_staff_eq h) ih.1 ih.2
    | mrUpd h => exact staffInv_of_staff_eq (updateMedicalRecord_staff_eq h) ih.1 ih.2
    | mrDel h => exact staffInv_of_staff_eq (deleteMedicalRecord_staff_eq h) ih.1 ih.2
    | vitalIns h => exact staffInv_of_staff_eq (insertVital_staff_eq h) ih.1 ih.2
    | vitalUpd h => exact staffInv_of_staff_eq (updateVital_staff_eq h) ih.1 ih.2
    | vitalDel h => exact staffInv_of_staff_eq (deleteVital_staff_eq h) ih.1 ih.2
    | rxIns h => exact staffInv_of_staff_eq (insertPrescription_staff_eq h) ih.1 ih.2
    | rxUpd h => exact staffInv_of_staff_eq (updatePrescription_staff_eq h) ih.1 ih.2
    | rxDel h => exact staffInv_of_staff_eq (deletePrescription_staff_eq h) ih.1 ih.2
    | labIns h => exact staffInv_of_staff_eq (insertLabResult_staff_eq h) ih.1 ih.2
    | labUpd h => exact staffInv_of_staff_eq (updateLabResultOp_staff_eq h) ih.1 ih.2
    | labDel h => exact staffInv_of_staff_eq (deleteLabResult_staff_eq h) ih.1 ih.2

/-! Lab-result life cycle, as the client drives it. -/

theorem insertLabResult_ok_shape {db db' : DB} {uid nid : Uuid}
    {now : Timestamp} {i : LabResultInsert}
    (h : insertLabResult db uid nid now i = Except.ok db') :
    db'.lab_results = db.lab_results ++ [labResultRowOf nid now i] := by
  simp only [insertLabResult] at h
  repeat' split at h
  any_goals cases h
  rfl

theorem updateLabResultOp_all {P : LabResultRow → Bool} {db db' : DB}
    {uid rid : Uuid} {f : LabResultRow → LabResultRow}
    (h : updateLabResultOp db uid rid f = Except.ok db')
    (hP : db.lab_results.all P = true) (hf : ∀ r, P (f r) = true) :
    db'.lab_results.all P = true := by
  simp only [updateLabResultOp, applyLabResultUpdate] at h
  repeat' split at h
  any_goals cases h
  all_goals try exact hP
  simp only [List.all_eq_true] at hP ⊢
  intro x hx
  rcases List.mem_map.mp hx with ⟨u, hu, rfl⟩
  split
  · exact hf _
  · exact hP u hu

/-- One step of the lab-results life cycle as the application performs it:
ordering a test (AddLabTestModal), submitting results (AddResultsForm),
or any operation that does not touch the lab_results table. -/
inductive LabStep : DB → DB → Prop where
  | order {db db' : DB} {uid nid : Uuid} {now : Timestamp} {pid : Uuid}
      {tn tt : String} {csid : Uuid} :
      orderLabTest db uid nid now pid tn tt csid = Except.ok db' →
      LabStep db db'
  | submit {db db' : DB} {uid : Uuid} {csid : Option Uuid} {rid : Uuid}
      {res : String} {now : Timestamp} :
      submitLabResults db uid csid rid res now = Except.ok db' →
      LabStep db db'
  | other {db db' : DB} : db'.lab_results = db.lab_results → LabStep db db'

/-- Database states reachable through the application's lab-result
operations. -/
def LabReachable (db : DB) : Prop := Relation.ReflTransGen LabStep emptyDB db

theorem labReachable_inv (db : DB) (h : LabReachable db) :
    labInvB db = true := by
  induction h with
  | refl => rfl
  | tail _ hstep ih =>
    cases hstep with
    | order h =>
      simp only [orderLabTest] at h
      have hs := insertLabResult_ok_shape h
      unfold labInvB at ih ⊢
      rw [hs]
      simp only [List.all_append, Bool.and_eq_true]
      exact ⟨ih, by simp [labCompletedAtOk, labResultRowOf]⟩
    | submit h =>
      simp only [submitLabResults, updateLabResult] at h
      exact updateLabResultOp_all h ih (fun r => rfl)
    | other he =>
      unfold labInvB at ih ⊢
      rw [he]
      exact ih

theorem submitLabResults_sets (db db' : DB) (uid : Uuid) (csid : Option Uuid)
    (rid : Uuid) (res : String) (now : Timestamp)
    (hall : labResultsUpdateAllowed db uid = true)
    (h : submitLabResults db uid csid rid res now = Except.ok db') :
    ∀ r ∈ db'.lab_results, r.id = rid →
      r.status = "completed" ∧ r.completed_at = some now := by
  simp only [submitLabResults, updateLabResult, updateLabResultOp, hall,
    if_true, applyLabResultUpdate] at h
  repeat' split at h
  any_goals cases h
  · rename_i hfind
    intro r hr hid
    have := List.find?_eq_none.mp hfind r hr
    simp [hid] at this
  · rename_i old hfind c1 c2 c3
    intro r hr hid
    rcases List.mem_map.mp hr with ⟨u, hu, rfl⟩
    split
    · exact ⟨rfl, rfl⟩
    · rename_i hne
      rw [if_neg hne] at hid
      have hod : old.id = rid := by simpa using List.find?_some hfind
      rw [hod] at hne
      exact absurd hid (by simpa using hne)

theorem insertAppointment_ok_shape {db db' : DB} {uid nid : Uuid}
    {now : Timestamp} {i : AppointmentInsert}
    (h : insertAppointment db uid nid now i = Except.ok db') :
    db'.appointments = db.appointments ++ [appointmentRowOf nid now i] := by
  simp only [insertAppointment] at h
  repeat' split at h
  any_goals cases h
  rfl

/-! Concrete states and inputs used to instantiate the theorems. -/

def exSeedIns : StaffInsert :=
  ⟨some 10, "John", "Musara", "doctor", some "General Medicine",
    "+263 77 123 4567", "demo@chitungwizahospital.com", some "MD-ZW-12345"⟩

def exDoctorRow : StaffRow := staffRowOf 1 0 exSeedIns

def exDb1 : DB := { emptyDB with staff := [exDoctorRow] }

def exPatientRow : PatientRow :=
  ⟨2, "Ama", "Moyo", 100, "female", "0771", none, "Unit A Chitungwiza",
    "63-123456A70", none, none, "Bo Moyo", "0772", 0⟩

def exDb2 : DB :=
  { emptyDB with
    staff := [exDoctorRow]
    patients := [exPatientRow] }

def exApptIns : AppointmentInsert := ⟨2, 1, 5, none, "checkup", none⟩

def exLabIns : LabResultInsert :=
  ⟨2, none, "Complete Blood Count", "Blood", none, none, 1, none, none, none⟩

def exDb2a : DB := { exDb2 with appointments := [appointmentRowOf 7 3 exApptIns] }

def exDb2b : DB := { exDb2 with lab_results := [labResultRowOf 7 3 exLabIns] }

def exReceptionistRow : StaffRow :=
  ⟨3, some 11, "Rita", "Dube", "receptionist", none, "0773",
    "rita@chitungwizahospital.com", none, 0⟩

def exDb6 : DB :=
  { emptyDB with
    staff := [exReceptionistRow]
    patients := [exPatientRow] }

def exDupPatientIns : PatientInsert :=
  ⟨"Tano", "Moyo", 200, "male", "0774", none, "Unit B Chitungwiza",
    "63-123456A70", none, none, "Ana Moyo", "0775"⟩

def exApptBadIns : AppointmentInsert := ⟨99, 1, 5, none, "checkup", none⟩

def exMrBadIns : MedicalRecordInsert :=
  ⟨99, 1, none, none, "cough", "flu", "rest", none⟩

def exVitalBadIns : VitalInsert := ⟨99, none, none, none, none, none, none, 1⟩

def exRxBadIns : PrescriptionInsert :=
  ⟨99, 99, 1, "amoxicillin", "500mg", "3x daily", "7 days", none⟩

def exLabBadIns : LabResultInsert :=
  ⟨99, none, "Complete Blood Count", "Blood", none, none, 1, none, none, none⟩

def exLabTechRow : StaffRow :=
  ⟨4, some 20, "Leo", "Ncube", "lab_technician", none, "0776",
    "leo@chitungwizahospital.com", none, 0⟩

def exLabRowPending : LabResultRow :=
  ⟨3, 2, none, "Complete Blood Count", "Blood", none, "pending", 1, none, 6,
    none⟩

def exDb9 : DB :=
  { emptyDB with
    staff := [exDoctorRow, exLabTechRow]
    patients := [exPatientRow]
    lab_results := [exLabRowPending] }

def exPatch : LabResultRow → LabResultRow :=
  fun r => { r with status := "completed", completed_at := some 7 }

def exLabRowDone : LabResultRow :=
  ⟨3, 2, none, "Complete Blood Count", "Blood", some "normal", "completed",
    1, some 4, 6, some 7⟩

def exDb9' : DB := { exDb9 with lab_results := [exLabRowDone] }

/-! The claims. -/

/-- C1, counterexample: the claim says a caller with no bound Staff row
gets no rows from a select on every table, but the staff SELECT policy
"Authenticated users can view all staff" has USING (true), so a roleless
authenticated caller (identity 99, no staff row) still reads the whole
staff table. -/
theorem c1_roleless_counterexample :
    hasStaffRow exDb1 99 = false ∧ selectStaff exDb1 99 ≠ [] := by decide

/-- C1, amended: an authenticated caller with no bound Staff row reads no
row of patients, appointments, medical_records, vitals, prescriptions or
lab_results, their self-profile lookup yields no result, every insert
fails with an authorization error, and every update succeeds while
changing nothing; however a select on staff returns every staff row. -/
theorem c1_roleless_denied (db : DB) (uid nid : Uuid) (now : Timestamp)
    (i1 : StaffInsert) (i2 : PatientInsert) (i3 : AppointmentInsert)
    (i4 : MedicalRecordInsert) (i5 : VitalInsert) (i6 : PrescriptionInsert)
    (i7 : LabResultInsert) (rid : Uuid) (f1 : StaffRow → StaffRow)
    (f2 : PatientRow → PatientRow) (f3 : AppointmentRow → AppointmentRow)
    (f4 : MedicalRecordRow → MedicalRecordRow) (f5 : VitalRow → VitalRow)
    (f6 : PrescriptionRow → PrescriptionRow)
    (f7 : LabResultRow → LabResultRow)
    (h : hasStaffRow db uid = false) :
    selectStaff db uid = db.staff ∧
    selfProfile db uid = none ∧
    selectPatients db uid = [] ∧
    selectAppointments db uid = [] ∧
    selectMedicalRecords db uid = [] ∧
    selectVitals db uid = [] ∧
    selectPrescriptions db uid = [] ∧
    selectLabResults db uid = [] ∧
    insertStaff db uid nid now i1 = Except.error DbError.AuthorizationError ∧
    insertPatient db uid nid now i2 = Except.error DbError.AuthorizationError ∧
    insertAppointment db uid nid now i3 = Except.error DbError.AuthorizationError ∧
    insertMedicalRecord db uid nid now i4 = Except.error DbError.AuthorizationError ∧
    insertVital db uid nid now i5 = Except.error DbError.AuthorizationError ∧
    insertPrescription db uid nid now i6 = Except.error DbError.AuthorizationError ∧
    insertLabResult db uid nid now i7 = Except.error DbError.AuthorizationError ∧
    updateStaff db uid rid f1 = Except.ok db ∧
    updatePatient db uid rid f2 = Except.ok db ∧
    updateAppointment db uid rid f3 = Except.ok db ∧
    updateMedicalRecord db uid rid f4 = Except.ok db ∧
    updateVital db uid rid f5 = Except.ok db ∧
    updatePrescription db uid rid f6 = Except.ok db ∧
    updateLabResultOp db uid rid f7 = Except.ok db := by
  have hrole := hasRole_false_of_no_staff db uid h
  have hadmin := isAdmin_false_of_no_staff db uid h
  have hsel : selectStaff db uid = db.staff := by
    simp [selectStaff, staffRowSelectable]
  refine ⟨hsel, ?_, ?_, ?_, ?_, ?_, ?_, ?_, ?_, ?_, ?_, ?_, ?_, ?_, ?_,
    ?_, ?_, ?_, ?_, ?_, ?_, ?_⟩
  · unfold selfProfile
    rw [hsel]
    apply List.find?_eq_none.mpr
    simp only [hasStaffRow, List.any_eq_false] at h
    exact h
  · simp [selectPatients, patientsSelectAllowed, h]
  · simp [selectAppointments, appointmentsSelectAllowed, h, hrole]
  · simp [selectMedicalRecords, medicalRecordsSelectAllowed, hrole]
  · simp [selectVitals, vitalsSelectAllowed, h, hrole]
  · simp [selectPrescriptions, prescriptionsSelectAllowed, h]
  · simp [selectLabResults, labResultsSelectAllowed, h]
  · simp [insertStaff, staffInsertAllowed, hadmin]
  · simp [insertPatient, patientsInsertAllowed, hrole]
  · simp [insertAppointment, appointmentsInsertAllowed, hrole]
  · simp [insertMedicalRecord, medicalRecordsInsertAllowed, hrole]
  · simp [insertVital, vitalsInsertAllowed, hrole]
  · simp [insertPrescription, prescriptionsInsertAllowed, hrole]
  · simp [insertLabResult, labResultsInsertAllowed, hrole]
  · simp [updateStaff, staffUpdateAllowed, hadmin]
  · simp [updatePatient, patientsUpdateAllowed, hrole]
  · simp [updateAppointment, appointmentsUpdateAllowed, hrole]
  · simp [updateMedicalRecord, medicalRecordsUpdateAllowed, hrole]
  · simp [updateVital, vitalsUpdateAllowed, hrole]
  · simp [updatePrescription, prescriptionsUpdateAllowed]
  · simp [updateLabResultOp, labResultsUpdateAllowed, hrole]

/-- C1, amended, instantiated at a concrete roleless caller. -/
theorem c1_roleless_denied_witness :
    selectStaff exDb1 99 = exDb1.staff ∧ selfProfile exDb1 99 = none :=
  have hfull := c1_roleless_denied exDb1 99 50 0 exSeedIns exDupPatientIns
    exApptIns exMrBadIns exVitalBadIns exRxBadIns exLabIns 1 id id id id id
    id id (by decide)
  ⟨hfull.1, hfull.2.1⟩

/-- C2, counterexample: the claim makes staff-row visibility conditional
on having a staff role or owning the row, but with USING (true) a caller
with neither (identity 99) still selects the row. -/
theorem c2_counterexample :
    exDoctorRow ∈ selectStaff exDb1 99 ∧ hasStaffRow exDb1 99 = false ∧
      exDoctorRow.user_id ≠ some 99 := by decide

/-- C2, amended: every authenticated caller selects every staff row,
regardless of role or ownership. -/
theorem c2_staff_select_all (db : DB) (uid : Uuid) (row : StaffRow)
    (hmem : row ∈ db.staff) : row ∈ selectStaff db uid := by
  unfold selectStaff
  exact List.mem_filter.mpr ⟨hmem, by simp [staffRowSelectable]⟩

/-- C2, amended, instantiated. -/
theorem c2_staff_select_all_witness : exDoctorRow ∈ selectStaff exDb1 99 :=
  c2_staff_select_all exDb1 99 exDoctorRow (by decide)

/-- C3: for a caller with a unique bound staff row, an update on
lab_results is permitted exactly when the role is lab_technician, doctor
or admin; when it is not, the statement leaves the database unchanged. -/
theorem c3_lab_update_roles (db : DB) (uid rid : Uuid)
    (f : LabResultRow → LabResultRow) (srow : StaffRow)
    (hmem : srow ∈ db.staff) (huid : srow.user_id = some uid)
    (huniq : ∀ s ∈ db.staff, s.user_id = some uid → s = srow) :
    labResultsUpdateAllowed db uid =
      ["lab_technician", "doctor", "admin"].contains srow.role ∧
    updateLabResultOp db uid rid f =
      (if ["lab_technician", "doctor", "admin"].contains srow.role
        then applyLabResultUpdate db rid f else Except.ok db) := by
  have hr := hasRole_of_bound db uid srow hmem huid huniq
    ["lab_technician", "doctor", "admin"]
  refine ⟨hr, ?_⟩
  unfold updateLabResultOp labResultsUpdateAllowed at *
  rw [hr]

/-- C3, instantiated at a lab technician. -/
theorem c3_lab_update_roles_witness :
    labResultsUpdateAllowed exDb9 20 =
      ["lab_technician", "doctor", "admin"].contains exLabTechRow.role ∧
    updateLabResultOp exDb9 20 3 exPatch =
      (if ["lab_technician", "doctor", "admin"].contains exLabTechRow.role
        then applyLabResultUpdate exDb9 3 exPatch else Except.ok exDb9) :=
  c3_lab_update_roles exDb9 20 3 exPatch exLabTechRow (by decide) rfl
    (by decide)

/-- C4: for a caller with a unique bound staff row, a select on
medical_records returns every row when the role is doctor, nurse or admin
and no row otherwise (in particular for receptionists and lab
technicians). -/
theorem c4_medical_record_select_roles (db : DB) (uid : Uuid)
    (srow : StaffRow) (hmem : srow ∈ db.staff)
    (huid : srow.user_id = some uid)
    (huniq : ∀ s ∈ db.staff, s.user_id = some uid → s = srow) :
    selectMedicalRecords db uid =
      (if ["doctor", "nurse", "admin"].contains srow.role
        then db.medical_records else []) := by
  have hr := hasRole_of_bound db uid srow hmem huid huniq
    ["doctor", "nurse", "admin"]
  simp only [selectMedicalRecords, medicalRecordsSelectAllowed, hr]
  cases hc : ["doctor", "nurse", "admin"].contains srow.role
  · simp
  · simp

/-- C4, instantiated at a lab technician, who reads no medical record. -/
theorem c4_medical_record_select_roles_witness :
    selectMedicalRecords exDb9 20 =
      (if ["doctor", "nurse", "admin"].contains exLabTechRow.role
        then exDb9.medical_records else []) :=
  c4_medical_record_select_roles exDb9 20 exLabTechRow (by decide) rfl
    (by decide)

/-- C5: an Appointment inserted with no explicit status is stored with
status scheduled, and a LabResult inserted with no explicit status is
stored with status pending. -/
theorem c5_status_defaults (db : DB) (uid nid : Uuid) (now : Timestamp)
    (ai : AppointmentInsert) (li : LabResultInsert) (db1 db2 : DB)
    (ha : ai.status = none) (hl : li.status = none)
    (h1 : insertAppointment db uid nid now ai = Except.ok db1)
    (h2 : insertLabResult db uid nid now li = Except.ok db2) :
    db1.appointments = db.appointments ++ [appointmentRowOf nid now ai] ∧
    (appointmentRowOf nid now ai).status = "scheduled" ∧
    db2.lab_results = db.lab_results ++ [labResultRowOf nid now li] ∧
    (labResultRowOf nid now li).status = "pending" := by
  refine ⟨insertAppointment_ok_shape h1, ?_, insertLabResult_ok_shape h2, ?_⟩
  · simp [appointmentRowOf, ha]
  · simp [labResultRowOf, hl]

/-- C5, instantiated. -/
theorem c5_status_defaults_witness :
    exDb2a.appointments = exDb2.appointments ++ [appointmentRowOf 7 3 exApptIns] ∧
    (appointmentRowOf 7 3 exApptIns).status = "scheduled" ∧
    exDb2b.lab_results = exDb2.lab_results ++ [labResultRowOf 7 3 exLabIns] ∧
    (labResultRowOf 7 3 exLabIns).status = "pending" :=
  c5_status_defaults exDb2 10 7 3 exApptIns exLabIns exDb2a exDb2b rfl rfl
    rfl rfl

/-- C6: an otherwise-authorized insert of a Patient whose national_id
equals an existing patients national_id fails with the uniqueness
error. -/
theorem c6_duplicate_national_id (db : DB) (uid nid : Uuid)
    (now : Timestamp) (i : PatientInsert)
    (hauth : patientsInsertAllowed db uid = true)
    (hg : genderCheck i.gender = true)
    (hdup : db.patients.any (fun p => p.national_id == i.national_id) = true) :
    insertPatient db uid nid now i = Except.error DbError.UniquenessError := by
  simp [insertPatient, patientRowOf, hauth, hg, hdup]

/-- C6, instantiated at a receptionist inserting a duplicate. -/
theorem c6_duplicate_national_id_witness :
    insertPatient exDb6 11 9 4 exDupPatientIns =
      Except.error DbError.UniquenessError :=
  c6_duplicate_national_id exDb6 11 9 4 exDupPatientIns (by decide)
    (by decide) (by decide)

/-- C7: for each of the five child tables, an authorized insert whose
foreign keys do not all resolve fails with the referential-integrity
error. -/
theorem c7_dangling_foreign_keys (db : DB) (uid nid : Uuid)
    (now : Timestamp) (ai : AppointmentInsert) (mi : MedicalRecordInsert)
    (vi : VitalInsert) (ri : PrescriptionInsert) (li : LabResultInsert)
    (h1 : appointmentsInsertAllowed db uid = true)
    (h2 : appointmentStatusCheck (appointmentRowOf nid now ai).status = true)
    (h3 : appointmentRowFkOk db (appointmentRowOf nid now ai) = false)
    (h4 : medicalRecordsInsertAllowed db uid = true)
    (h5 : medicalRecordRowFkOk db (medicalRecordRowOf nid now mi) = false)
    (h6 : vitalsInsertAllowed db uid = true)
    (h7 : vitalRowFkOk db (vitalRowOf nid now vi) = false)
    (h8 : prescriptionsInsertAllowed db uid = true)
    (h9 : prescriptionRowFkOk db (prescriptionRowOf nid now ri) = false)
    (h10 : labResultsInsertAllowed db uid = true)
    (h11 : labStatusCheck (labResultRowOf nid now li).status = true)
    (h12 : labResultRowFkOk db (labResultRowOf nid now li) = false) :
    insertAppointment db uid nid now ai =
      Except.error DbError.ReferentialIntegrityError ∧
    insertMedicalRecord db uid nid now mi =
      Except.error DbError.ReferentialIntegrityError ∧
    insertVital db uid nid now vi =
      Except.error DbError.ReferentialIntegrityError ∧
    insertPrescription db uid nid now ri =
      Except.error DbError.ReferentialIntegrityError ∧
    insertLabResult db uid nid now li =
      Except.error DbError.ReferentialIntegrityError := by
  refine ⟨?_, ?_, ?_, ?_, ?_⟩
  · simp [insertAppointment, h1, h2, h3]
  · simp [insertMedicalRecord, h4, h5]
  · simp [insertVital, h6, h7]
  · simp [insertPrescription, h8, h9]
  · simp [insertLabResult, h10, h11, h12]

/-- C7, instantiated at a doctor inserting children of a nonexistent
patient or medical record. -/
theorem c7_dangling_foreign_keys_witness :
    insertAppointment exDb1 10 8 4 exApptBadIns =
      Except.error DbError.ReferentialIntegrityError ∧
    insertMedicalRecord exDb1 10 8 4 exMrBadIns =
      Except.error DbError.ReferentialIntegrityError ∧
    insertVital exDb1 10 8 4 exVitalBadIns =
      Except.error DbError.ReferentialIntegrityError ∧
    insertPrescription exDb1 10 8 4 exRxBadIns =
      Except.error DbError.ReferentialIntegrityError ∧
    insertLabResult exDb1 10 8 4 exLabBadIns =
      Except.error DbError.ReferentialIntegrityError :=
  c7_dangling_foreign_keys exDb1 10 8 4 exApptBadIns exMrBadIns exVitalBadIns
    exRxBadIns exLabBadIns (by decide) (by decide) (by decide) (by decide)
    (by decide) (by decide) (by decide) (by decide) (by decide) (by decide)
    (by decide) (by decide)

/-- C8: in every reachable state of the database, every staff row has a
non-null user_id and no two staff rows share a user_id; every operation
of the system preserves this. -/
theorem c8_staff_identity_unique (db : DB) (h : Reachable db) :
    staffInvB db = true :=
  (reachable_staff_inv db h).1

/-- C8, instantiated at the state reached by the demo-account seed. -/
theorem c8_staff_identity_unique_witness : staffInvB exDb1 = true :=
  c8_staff_identity_unique exDb1
    (Relation.ReflTransGen.single (@Step.seed emptyDB exDb1 1 0 exSeedIns rfl))

/-- C9: in every state reachable through the applications lab-result
operations, completed_at is populated only on rows whose status is
completed; and the completing update (AddResultsForm submitting through
updateLabResult) sets status to completed and completed_at to the moment
of the transition. -/
theorem c9_completed_at_on_completion :
    (∀ db, LabReachable db → labInvB db = true) ∧
    (∀ db db' uid csid rid res now,
      labResultsUpdateAllowed db uid = true →
      submitLabResults db uid csid rid res now = Except.ok db' →
      ∀ r ∈ db'.lab_results, r.id = rid →
        r.status = "completed" ∧ r.completed_at = some now) :=
  ⟨labReachable_inv,
    fun db db' uid csid rid res now hall h =>
      submitLabResults_sets db db' uid csid rid res now hall h⟩

/-- C9, instantiated: the empty state satisfies the invariant, and a lab
technician completing the pending test row yields status completed with
completed_at set. -/
theorem c9_completed_at_on_completion_witness :
    labInvB emptyDB = true ∧
    exLabRowDone.status = "completed" ∧ exLabRowDone.completed_at = some 7 :=
  ⟨c9_completed_at_on_completion.1 emptyDB Relation.ReflTransGen.refl,
    c9_completed_at_on_completion.2 exDb9 exDb9' 20 (some 4) 3 "normal" 7
      (by decide) rfl exLabRowDone (by decide) rfl⟩

/-- C10: prescriptions carry no update and no delete policy, so with
row-level security enabled an update or delete on prescriptions is denied
for every caller, admin included: it reaches no row and leaves the
database unchanged. -/
theorem c10_prescriptions_immutable (db : DB) (uid pid : Uuid)
    (f : PrescriptionRow → PrescriptionRow) :
    prescriptionsUpdateAllowed db uid = false ∧
    prescriptionsDeleteAllowed db uid = false ∧
    updatePrescription db uid pid f = Except.ok db ∧
    deletePrescription db uid pid = Except.ok db :=
  ⟨rfl, rfl, rfl, rfl⟩
